import Mathlib

/-!
Shallow embedding of `crates/typst-pdf/src/tags/text.rs`: the text-attribute
stack used while building PDF accessibility tags.  Pure values are modelled
directly; the `&mut self` methods become state-passing functions returning the
method result paired with the updated stack.  Lengths (`Abs`, `Em`, `Length`)
are modelled over `ℚ`; the `f32` conversion `to_f32` is modelled as the
identity on `ℚ` (float rounding is abstracted away, none of the claims depend
on it).  External collaborator types (`Location`, `Content`, `Font` metrics,
`PdfOptions`, paints, and the krilla tagging vocabulary) are modelled from the
spec's description of those interfaces.
-/

namespace TypstText

/-- Modelled from the spec: an opaque, comparable identifier for a point in
the document tree; used only for matching push/pop pairs. -/
abbrev Location := Nat

/-- Modelled from the spec: a source reference carried by errors. -/
abbrev Span := Nat

/-- Modelled from the spec: the document content model provides an opaque
`Location` per formatting scope (the Rust code obtains it via
`elem.location().unwrap()`) and a source span for error messages. -/
structure Content where
  loc : Location
  span : Span
deriving DecidableEq, Repr

/-- Absolute length, modelled over `ℚ` (typst's `Abs` is a scalar length). -/
abbrev Abs := ℚ

/-- Modelled from the spec: a font-relative length unit; `at size` converts it
to absolute units using the given font size. -/
structure Em where
  val : ℚ
deriving DecidableEq, Repr

def Em.at (e : Em) (size : Abs) : Abs := e.val * size

/-- Modelled from the spec: a length with an absolute part and a font-relative
part; `at size` resolves the font-relative part at the given font size. -/
structure Length where
  abs : Abs
  em : Em
deriving DecidableEq, Repr

def Length.at (l : Length) (size : Abs) : Abs := l.abs + l.em.at size

/-- Rust `TextSize` wraps a length (typst's `TextSize(pub Length)`). -/
structure TextSize where
  val : Length
deriving DecidableEq, Repr

/-- Rust `AbsExt::to_f32`, modelled as the identity on `ℚ` (rounding abstracted). -/
def Abs.to_f32 (a : Abs) : ℚ := a

/-- typst's `Smart`: either automatic or an explicit custom value. -/
inductive Smart (α : Type) where
  | auto
  | custom (v : α)
deriving DecidableEq, Repr

def Smart.map {α β : Type} (f : α → β) : Smart α → Smart β
  | .auto => .auto
  | .custom v => .custom (f v)

def Smart.unwrap_or_else {α : Type} (s : Smart α) (f : Unit → α) : α :=
  match s with
  | .auto => f ()
  | .custom v => v

/-- Rust `Smart::custom`: the custom value, if any. -/
def Smart.custom_opt {α : Type} : Smart α → Option α
  | .auto => none
  | .custom v => some v

/-- krilla's `NaiveRgbColor`. -/
structure NaiveRgbColor where
  r : Nat
  g : Nat
  b : Nat
deriving DecidableEq, Repr

/-- Modelled from the spec: an abstract paint description; the color resolver
`convert::paint_to_color` flattens it to an optional color. -/
structure Paint where
  flattened : Option NaiveRgbColor
deriving DecidableEq, Repr

/-- Modelled from the spec: the color resolver converts an abstract paint to
an optional flattened color value (`None` if unrepresentable). -/
def paint_to_color (p : Paint) : Option NaiveRgbColor := p.flattened

/-- typst's `Stroke` restricted to the fields this module reads. -/
structure Stroke where
  paint : Smart Paint
  thickness : Smart Length
deriving DecidableEq, Repr

/-- typst's `ScriptKind`: subscript or superscript. -/
inductive ScriptKind where
  | sub
  | sup
deriving DecidableEq, Repr

/-- Modelled from the spec: per-script-kind font metrics, a vertical-offset
and height pair in font-relative units. -/
structure ScriptMetrics where
  vertical_offset : Em
  height : Em
deriving DecidableEq, Repr

/-- Modelled from the spec: the font's metrics table holds the subscript and
superscript metrics. -/
structure FontMetrics where
  subscript : ScriptMetrics
  superscript : ScriptMetrics
deriving DecidableEq, Repr

/-- Modelled from the spec: given a script kind and a font's metrics table,
return the axis-specific vertical-offset/height pair. -/
def ScriptKind.read_metrics (k : ScriptKind) (m : FontMetrics) : ScriptMetrics :=
  match k with
  | .sub => m.subscript
  | .sup => m.superscript

/-- Modelled from the spec: a font exposes a stable identity usable for
cache-key equality (`Font::index`) and a metrics table. -/
structure Font where
  index : Nat
  metrics : FontMetrics
deriving DecidableEq, Repr

/-- The text run parameters resolution depends on: the active font and size. -/
structure TextItem where
  font : Font
  size : Abs
deriving DecidableEq, Repr

/-- Modelled from the spec: the validation/standards configuration exposes
whether strict accessibility mode (PDF/UA) is active and a human-readable
validator name for error messages. -/
structure PdfOptions where
  is_pdf_ua : Bool
  validator : String
deriving DecidableEq, Repr

/-- A `SourceDiagnostic` as produced by `bail!(span, msg)`. -/
structure SourceDiagnostic where
  span : Span
  message : String
deriving DecidableEq, Repr

/-- Sub- or super-script (`Script` in the source). -/
structure Script where
  kind : ScriptKind
  baseline_shift : Smart Length
  lineheight : Smart TextSize
deriving DecidableEq, Repr

inductive TextDecoKind where
  | Underline
  | Overline
  | Strike
deriving DecidableEq, Repr

/-- krilla's `TextDecorationType`. -/
inductive TextDecorationType where
  | Underline
  | Overline
  | LineThrough
deriving DecidableEq, Repr

def TextDecoKind.to_krilla : TextDecoKind → TextDecorationType
  | .Underline => .Underline
  | .Overline => .Overline
  | .Strike => .LineThrough

structure TextDecoStroke where
  color : Option NaiveRgbColor
  thickness : Option Length
deriving DecidableEq, Repr

def TextDecoStroke.default : TextDecoStroke := { color := none, thickness := none }

/-- Rust `TextDecoStroke::from(stroke)`. -/
def TextDecoStroke.from (stroke : Smart Stroke) : TextDecoStroke :=
  match stroke with
  | .auto => TextDecoStroke.default
  | .custom stroke =>
    { color := (stroke.paint.custom_opt).bind paint_to_color
      thickness := stroke.thickness.custom_opt }

structure TextDeco where
  kind : TextDecoKind
  stroke : TextDecoStroke
deriving DecidableEq, Repr

inductive TextAttr where
  | Strong
  | Emph
  | Script (s : Script)
  | Highlight (color : Option NaiveRgbColor)
  | Deco (d : TextDeco)
deriving DecidableEq, Repr

/-- Rust `TextAttr::as_deco`. -/
def TextAttr.as_deco : TextAttr → Option TextDeco
  | .Deco v => some v
  | _ => none

/-- krilla's `LineHeight`. -/
inductive LineHeight where
  | Normal
  | Custom (v : ℚ)
deriving DecidableEq, Repr

structure ResolvedScript where
  baseline_shift : ℚ
  lineheight : LineHeight
deriving DecidableEq, Repr

structure ResolvedTextDeco where
  kind : TextDecoKind
  color : Option NaiveRgbColor
  thickness : Option ℚ
deriving DecidableEq, Repr

structure ResolvedTextAttrs where
  strong : Option Bool
  emph : Option Bool
  script : Option ResolvedScript
  background : Option (Option NaiveRgbColor)
  deco : Option ResolvedTextDeco
deriving DecidableEq, Repr

def ResolvedTextAttrs.EMPTY : ResolvedTextAttrs :=
  { strong := none, emph := none, script := none, background := none, deco := none }

def ResolvedTextAttrs.is_empty (a : ResolvedTextAttrs) : Bool :=
  a = ResolvedTextAttrs.EMPTY

def ResolvedTextAttrs.all_resolved (a : ResolvedTextAttrs) : Bool :=
  a.strong.isSome && a.emph.isSome && a.script.isSome
    && a.background.isSome && a.deco.isSome

/-- Rust `TextParams`: the memo key — font identity and size. -/
structure TextParams where
  font_index : Nat
  size : Abs
deriving DecidableEq, Repr

/-- Rust `TextParams::new`: comparing font indices is enough. -/
def TextParams.new (text : TextItem) : TextParams :=
  { font_index := text.font.index, size := text.size }

/-- Rust `Option::get_or_insert`: the net effect on the option value. -/
def getOrInsert {α : Type} (o : Option α) (v : α) : Option α :=
  match o with
  | none => some v
  | some w => some w

/-- The value the `Script` arm of the `resolve_attrs` loop computes for the
script slot: explicit overrides win (the user's baseline shift sign-inverted),
otherwise the font's axis-specific metrics, both resolved at `size`. -/
def decide_script (font : Font) (size : Abs) (script : Script) : ResolvedScript :=
  let script_metrics := script.kind.read_metrics font.metrics
  let baseline_shift :=
    (script.baseline_shift.map (fun s => -(s.at size))).unwrap_or_else
      (fun _ => script_metrics.vertical_offset.at size)
  let lineheight :=
    (script.lineheight.map (fun s => s.val.at size)).unwrap_or_else
      (fun _ => script_metrics.height.at size)
  { baseline_shift := baseline_shift.to_f32
    lineheight := LineHeight.Custom lineheight.to_f32 }

/-- The value the `Deco` arm of the `resolve_attrs` loop computes for the
decoration slot. -/
def decide_deco (size : Abs) (d : TextDeco) : ResolvedTextDeco :=
  { kind := d.kind
    color := d.stroke.color
    thickness := d.stroke.thickness.map (fun t => (t.at size).to_f32) }

/-- The body of one iteration of the `resolve_attrs` loop: the `match` on the
entry's attribute, each arm a `get_or_insert` on its axis's slot. -/
def resolve_step (font : Font) (size : Abs) (attrs : ResolvedTextAttrs) :
    TextAttr → ResolvedTextAttrs
  | .Strong => { attrs with strong := getOrInsert attrs.strong true }
  | .Emph => { attrs with emph := getOrInsert attrs.emph true }
  | .Script script =>
    { attrs with script := getOrInsert attrs.script (decide_script font size script) }
  | .Highlight color => { attrs with background := getOrInsert attrs.background color }
  | .Deco d =>
    { attrs with deco := getOrInsert attrs.deco (decide_deco size d) }

/-- The `for` loop of `resolve_attrs` over the already-reversed item list,
with the early exit once every slot is decided. -/
def resolve_attrs_go (font : Font) (size : Abs) :
    List (Location × TextAttr) → ResolvedTextAttrs → ResolvedTextAttrs
  | [], attrs => attrs
  | e :: rest, attrs =>
    let attrs := resolve_step font size attrs e.2
    if attrs.all_resolved then attrs else resolve_attrs_go font size rest attrs

/-- Rust `resolve_attrs`: walk the log in reverse insertion order, deciding each
axis's slot from the first entry of that axis encountered, stopping early once
every slot is decided. -/
def resolve_attrs (items : List (Location × TextAttr)) (font : Font) (size : Abs) :
    ResolvedTextAttrs :=
  resolve_attrs_go font size items.reverse ResolvedTextAttrs.EMPTY

/-- The attribute stack: the single-slot memo and the append-only log. -/
structure TextAttrs where
  last_resolved : Option (TextParams × ResolvedTextAttrs)
  items : List (Location × TextAttr)
deriving DecidableEq, Repr

def TextAttrs.new : TextAttrs := { last_resolved := none, items := [] }

/-- Rust `TextAttrs::push`: append `(location, attr)` and invalidate the memo. -/
def TextAttrs.push (s : TextAttrs) (elem : Content) (attr : TextAttr) : TextAttrs :=
  { last_resolved := none, items := s.items ++ [(elem.loc, attr)] }

def TextAttrs.push_script (s : TextAttrs) (elem : Content) (kind : ScriptKind)
    (baseline_shift : Smart Length) (lineheight : Smart TextSize) : TextAttrs :=
  s.push elem (TextAttr.Script { kind, baseline_shift, lineheight })

def TextAttrs.push_highlight (s : TextAttrs) (elem : Content) (paint : Option Paint) :
    TextAttrs :=
  s.push elem (TextAttr.Highlight (paint.bind paint_to_color))

/-- Rust `TextAttrs::push_deco`: in strict (PDF/UA) mode, fail if any active
decoration has a different kind; otherwise push.  Returns the
`SourceResult<()>` paired with the updated stack (unchanged on error). -/
def TextAttrs.push_deco (s : TextAttrs) (options : PdfOptions) (elem : Content)
    (kind : TextDecoKind) (stroke : Smart Stroke) :
    Except SourceDiagnostic Unit × TextAttrs :=
  let stroke := TextDecoStroke.from stroke
  let deco : TextDeco := { kind, stroke }
  if options.is_pdf_ua
      && (s.items.filterMap (fun e => e.2.as_deco)).any (fun d => d.kind ≠ deco.kind) then
    (Except.error
      { span := elem.span
        message := options.validator ++ " error: cannot combine underline, overline, or strike" },
      s)
  else
    (Except.ok (), s.push elem (TextAttr.Deco deco))

/-- Rust `Vec::rposition` equivalent: index of the last element satisfying `p`. -/
def rposition {α : Type} (l : List α) (p : α → Bool) : Option Nat :=
  match l.reverse.findIdx? p with
  | some j => some (l.length - 1 - j)
  | none => none

/-- Rust `TextAttrs::pop`: invalidate the memo, then remove the most recent entry
whose location matches, returning whether an entry was removed. -/
def TextAttrs.pop (s : TextAttrs) (loc : Location) : Bool × TextAttrs :=
  let s := { s with last_resolved := none }
  match rposition s.items (fun e => e.1 = loc) with
  | some i => (true, { s with items := s.items.eraseIdx i })
  | none => (false, s)

/-- Rust `TextAttrs::resolve`: return the memoized value on a parameter hit,
otherwise recompute and store. -/
def TextAttrs.resolve (s : TextAttrs) (text : TextItem) :
    ResolvedTextAttrs × TextAttrs :=
  let params := TextParams.new text
  match s.last_resolved with
  | some pa =>
    if pa.1 = params then (pa.2, s)
    else
      let attrs := resolve_attrs s.items text.font text.size
      (attrs, { s with last_resolved := some (params, attrs) })
  | none =>
    let attrs := resolve_attrs s.items text.font text.size
    (attrs, { s with last_resolved := some (params, attrs) })

/-- krilla's `Identifier` for a leaf content item, modelled opaquely. -/
abbrev Identifier := Nat

/-- Modelled from the spec: the output tagging library's span-style group
accepts optional line-height, baseline-shift, background-color,
decoration-type, decoration-color and decoration-thickness attributes. -/
structure SpanAttrs where
  line_height : Option LineHeight
  baseline_shift : Option ℚ
  background_color : Option NaiveRgbColor
  text_decoration_type : Option TextDecorationType
  text_decoration_color : Option NaiveRgbColor
  text_decoration_thickness : Option ℚ
deriving DecidableEq, Repr

/-- Rust `Tag::Span` with no attribute set. -/
def SpanAttrs.empty : SpanAttrs :=
  { line_height := none, baseline_shift := none, background_color := none
    text_decoration_type := none, text_decoration_color := none
    text_decoration_thickness := none }

/-- Modelled from the spec: the output tagging library's vocabulary of
structural tag kinds used here: span-style group, "strong", "emphasis". -/
inductive Tag where
  | Span (a : SpanAttrs)
  | Strong
  | Em
deriving DecidableEq, Repr

def Tag.with_line_height (t : Tag) (v : Option LineHeight) : Tag :=
  match t with
  | .Span a => .Span { a with line_height := v }
  | t => t

def Tag.with_baseline_shift (t : Tag) (v : Option ℚ) : Tag :=
  match t with
  | .Span a => .Span { a with baseline_shift := v }
  | t => t

def Tag.with_background_color (t : Tag) (v : Option NaiveRgbColor) : Tag :=
  match t with
  | .Span a => .Span { a with background_color := v }
  | t => t

def Tag.with_text_decoration_type (t : Tag) (v : Option TextDecorationType) : Tag :=
  match t with
  | .Span a => .Span { a with text_decoration_type := v }
  | t => t

def Tag.with_text_decoration_color (t : Tag) (v : Option NaiveRgbColor) : Tag :=
  match t with
  | .Span a => .Span { a with text_decoration_color := v }
  | t => t

def Tag.with_text_decoration_thickness (t : Tag) (v : Option ℚ) : Tag :=
  match t with
  | .Span a => .Span { a with text_decoration_thickness := v }
  | t => t

mutual
/-- Modelled from the spec: a node of the output tag tree is a leaf
identifier or a tag group. -/
inductive Node where
  | Leaf (id : Identifier)
  | Group (g : TagGroup)

/-- Modelled from the spec: a tag group labels an ordered list of child
nodes with a structural tag. -/
inductive TagGroup where
  | mk (tag : Tag) (children : List Node)
end

/-- Rust `TagGroup::with_children`. -/
def TagGroup.with_children (tag : Tag) (children : List Node) : TagGroup :=
  TagGroup.mk tag children

/-- The local `Prev` enum of `resolve_nodes`. -/
inductive Prev where
  | Children (ids : List Identifier)
  | Group (g : TagGroup)

/-- Rust `Prev::into_nodes`. -/
def Prev.into_nodes : Prev → List Node
  | .Children ids => ids.map Node.Leaf
  | .Group group => [Node.Group group]

/-- Rust `ResolvedTextAttrs::resolve_nodes`: wrap `children` in a span-style group
when script/background/decoration is set, then a `Strong` group when strong is
set, then an `Em` group when emphasis is set, and append the result to
`accum`. -/
def ResolvedTextAttrs.resolve_nodes (self : ResolvedTextAttrs) (accum : List Node)
    (children : List Identifier) : List Node :=
  let prev := Prev.Children children
  let prev :=
    if self.script.isSome || self.background.isSome || self.deco.isSome then
      let tag :=
        ((((((Tag.Span SpanAttrs.empty).with_line_height
          (self.script.map (fun s => s.lineheight))).with_baseline_shift
          (self.script.map (fun s => s.baseline_shift))).with_background_color
          self.background.join).with_text_decoration_type
          (self.deco.map (fun d => d.kind.to_krilla))).with_text_decoration_color
          (self.deco.bind (fun d => d.color))).with_text_decoration_thickness
          (self.deco.bind (fun d => d.thickness))
      Prev.Group (TagGroup.with_children tag prev.into_nodes)
    else prev
  let prev :=
    if self.strong = some true then
      Prev.Group (TagGroup.with_children Tag.Strong prev.into_nodes)
    else prev
  let prev :=
    if self.emph = some true then
      Prev.Group (TagGroup.with_children Tag.Em prev.into_nodes)
    else prev
  match prev with
  | .Group group => accum ++ [Node.Group group]
  | .Children ids => accum ++ ids.map Node.Leaf

/-- Modelled from the claim's words: a naive reverse-order scan of the entire
log with no early exit, as the reference semantics for the early-exit loop. -/
def resolve_attrs_noexit (items : List (Location × TextAttr)) (font : Font)
    (size : Abs) : ResolvedTextAttrs :=
  items.reverse.foldl (fun attrs e => resolve_step font size attrs e.2)
    ResolvedTextAttrs.EMPTY

/-! ### Axis extraction and helper lemmas -/

/-- The payload an entry contributes to the strong axis. -/
def axis_strong : TextAttr → Option Bool
  | .Strong => some true
  | _ => none

/-- The payload an entry contributes to the emphasis axis. -/
def axis_emph : TextAttr → Option Bool
  | .Emph => some true
  | _ => none

/-- The payload an entry contributes to the script axis. -/
def axis_script : TextAttr → Option Script
  | .Script s => some s
  | _ => none

/-- The payload an entry contributes to the background axis. -/
def axis_background : TextAttr → Option (Option NaiveRgbColor)
  | .Highlight c => some c
  | _ => none

/-- The payload an entry contributes to the decoration axis. -/
def axis_deco : TextAttr → Option TextDeco
  | .Deco d => some d
  | _ => none

/-- Left-biased choice on options. -/
def orO {α : Type} (a b : Option α) : Option α :=
  match a with
  | some x => some x
  | none => b

theorem orO_none_left {α : Type} (b : Option α) : orO none b = b := rfl

theorem orO_none_right {α : Type} (a : Option α) : orO a none = a := by
  cases a <;> rfl

theorem orO_assoc {α : Type} (a b c : Option α) :
    orO (orO a b) c = orO a (orO b c) := by
  cases a <;> rfl

theorem orO_map {α β : Type} (g : α → β) (a b : Option α) :
    (orO a b).map g = orO (a.map g) (b.map g) := by
  cases a <;> rfl

theorem getOrInsert_eq_orO {α : Type} (o : Option α) (v : α) :
    getOrInsert o v = orO o (some v) := by
  cases o <;> rfl

theorem getOrInsert_of_isSome {α : Type} {o : Option α} {v : α}
    (h : o.isSome = true) : getOrInsert o v = o := by
  cases o with
  | none => simp at h
  | some w => rfl

theorem findSome?_cons_orO {α β : Type} (f : α → Option β) (a : α) (l : List α) :
    (a :: l).findSome? f = orO (f a) (l.findSome? f) := by
  rw [List.findSome?_cons]
  cases f a <;> rfl

/-- Full characterization of the no-early-exit fold: each slot is the
accumulator's value if already decided, else the decision of the first entry
of its axis in `l`. -/
theorem foldl_resolve_step_spec (font : Font) (size : Abs)
    (l : List (Location × TextAttr)) (a : ResolvedTextAttrs) :
    l.foldl (fun attrs e => resolve_step font size attrs e.2) a =
      { strong := orO a.strong (l.findSome? fun e => axis_strong e.2)
        emph := orO a.emph (l.findSome? fun e => axis_emph e.2)
        script := orO a.script
          ((l.findSome? fun e => axis_script e.2).map (decide_script font size))
        background := orO a.background (l.findSome? fun e => axis_background e.2)
        deco := orO a.deco
          ((l.findSome? fun e => axis_deco e.2).map (decide_deco size)) } := by
  induction l generalizing a with
  | nil =>
    simp only [List.foldl_nil, List.findSome?_nil, Option.map_none', orO_none_right]
  | cons x l ih =>
    rw [List.foldl_cons, ih]
    cases hx : x.2 <;>
      simp only [resolve_step, getOrInsert_eq_orO, findSome?_cons_orO, hx,
        axis_strong, axis_emph, axis_script, axis_background, axis_deco,
        orO_none_left, orO_assoc, orO_map, Option.map_some']

theorem resolve_step_of_all_resolved (font : Font) (size : Abs)
    {a : ResolvedTextAttrs} (t : TextAttr) (h : a.all_resolved = true) :
    resolve_step font size a t = a := by
  simp only [ResolvedTextAttrs.all_resolved, Bool.and_eq_true] at h
  obtain ⟨⟨⟨⟨h1, h2⟩, h3⟩, h4⟩, h5⟩ := h
  cases t <;>
    simp only [resolve_step, getOrInsert_of_isSome h1, getOrInsert_of_isSome h2,
      getOrInsert_of_isSome h3, getOrInsert_of_isSome h4, getOrInsert_of_isSome h5]

theorem foldl_of_all_resolved (font : Font) (size : Abs)
    (l : List (Location × TextAttr)) {a : ResolvedTextAttrs}
    (h : a.all_resolved = true) :
    l.foldl (fun attrs e => resolve_step font size attrs e.2) a = a := by
  induction l with
  | nil => rfl
  | cons x l ih =>
    rw [List.foldl_cons, resolve_step_of_all_resolved font size x.2 h]
    exact ih

/-- The early-exit loop computes the same value as the plain fold. -/
theorem resolve_attrs_go_eq_foldl (font : Font) (size : Abs)
    (l : List (Location × TextAttr)) (a : ResolvedTextAttrs) :
    resolve_attrs_go font size l a
      = l.foldl (fun attrs e => resolve_step font size attrs e.2) a := by
  induction l generalizing a with
  | nil => rfl
  | cons x l ih =>
    rw [resolve_attrs_go, List.foldl_cons]
    by_cases hres : (resolve_step font size a x.2).all_resolved = true
    · simp only [hres, if_true]
      exact (foldl_of_all_resolved font size l hres).symm
    · simp only [hres, if_false]
      exact ih _

/-- Characterization of `resolve_attrs` itself. -/
theorem resolve_attrs_spec (items : List (Location × TextAttr)) (font : Font)
    (size : Abs) :
    resolve_attrs items font size =
      { strong := items.reverse.findSome? fun e => axis_strong e.2
        emph := items.reverse.findSome? fun e => axis_emph e.2
        script := (items.reverse.findSome? fun e => axis_script e.2).map
          (decide_script font size)
        background := items.reverse.findSome? fun e => axis_background e.2
        deco := (items.reverse.findSome? fun e => axis_deco e.2).map
          (decide_deco size) } := by
  rw [resolve_attrs, resolve_attrs_go_eq_foldl, foldl_resolve_step_spec]
  simp only [ResolvedTextAttrs.EMPTY, orO_none_left]

/-! ### Example values used by witnesses -/

/-- An example font: subscript metrics offset 1em / height 3em, superscript
metrics offset 2em / height 5em. -/
def font0 : Font :=
  { index := 0
    metrics :=
      { subscript := { vertical_offset := { val := 1 }, height := { val := 3 } }
        superscript := { vertical_offset := { val := 2 }, height := { val := 5 } } } }

/-- An example subscript attribute with an explicit 1pt baseline shift and an
automatic line height. -/
def script0 : Script :=
  { kind := ScriptKind.sub
    baseline_shift := Smart.custom { abs := 1, em := { val := 0 } }
    lineheight := Smart.auto }

/-! ### Claim theorems -/

/-- C1: `resolve_attrs` realizes innermost-wins per axis: walking the log in
reverse insertion order, each of the five slots (strong, emphasis, script,
background, decoration) is decided by the most recently pushed, not yet popped
entry of its axis — in particular the decoration slot is decided by the most
recent decoration entry regardless of kind — and a slot whose axis never
occurs in the log stays `none`. -/
theorem resolve_attrs_innermost_wins (items : List (Location × TextAttr))
    (font : Font) (size : Abs) :
    resolve_attrs items font size =
      { strong := items.reverse.findSome? fun e => axis_strong e.2
        emph := items.reverse.findSome? fun e => axis_emph e.2
        script := (items.reverse.findSome? fun e => axis_script e.2).map
          (decide_script font size)
        background := items.reverse.findSome? fun e => axis_background e.2
        deco := (items.reverse.findSome? fun e => axis_deco e.2).map
          (decide_deco size) } :=
  resolve_attrs_spec items font size

/-- C10: the early-exit loop of `resolve_attrs` (which breaks once all five
slots are decided) returns exactly the same resolved style as the naive
reverse-order scan of the entire log with no early exit. -/
theorem resolve_attrs_eq_noexit (items : List (Location × TextAttr))
    (font : Font) (size : Abs) :
    resolve_attrs items font size = resolve_attrs_noexit items font size := by
  rw [resolve_attrs, resolve_attrs_noexit, resolve_attrs_go_eq_foldl]

/-- C5: when a script entry decides the script slot, the effective
baseline-shift is the explicit override sign-inverted if given, else the
font's metric-derived vertical offset (not inverted); the effective
line-height is the explicit override if given, else the metric-derived
height; and both are resolved against the run's font size passed to
`resolve_attrs` at decision time. -/
theorem resolve_attrs_script_decision (items : List (Location × TextAttr))
    (font : Font) (size : Abs) (s : Script)
    (h : (items.reverse.findSome? fun e => axis_script e.2) = some s) :
    (resolve_attrs items font size).script =
      some
        { baseline_shift :=
            match s.baseline_shift with
            | Smart.custom l => -(l.at size)
            | Smart.auto => ((s.kind.read_metrics font.metrics).vertical_offset.at size)
          lineheight :=
            LineHeight.Custom
              (match s.lineheight with
                | Smart.custom t => t.val.at size
                | Smart.auto => ((s.kind.read_metrics font.metrics).height.at size)) } := by
  rw [resolve_attrs_spec, h]
  cases hb : s.baseline_shift <;> cases hl : s.lineheight <;>
    simp [decide_script, Smart.map, Smart.unwrap_or_else, Abs.to_f32, hb, hl]

/-- Witness for C5: a subscript entry with explicit baseline shift `1pt` and
auto line height, resolved at size 2 against `font0`, yields baseline shift
`-1` (sign-inverted override) and line height `6` (metric-derived, 3em at
size 2). -/
theorem resolve_attrs_script_decision_witness :
    (resolve_attrs [(0, TextAttr.Script script0)] font0 2).script =
      some { baseline_shift := -1, lineheight := LineHeight.Custom 6 } := by
  have h := resolve_attrs_script_decision [(0, TextAttr.Script script0)] font0 2
    script0 (by rfl)
  rw [h]
  norm_num [script0, font0, Length.at, Em.at, ScriptKind.read_metrics]

theorem rposition_eq_none {α : Type} {l : List α} {p : α → Bool}
    (h : ∀ e ∈ l, p e = false) : rposition l p = none := by
  have h2 : l.reverse.findIdx? p = none :=
    List.findIdx?_eq_none_iff.mpr fun x hx => h x (List.mem_reverse.mp hx)
  unfold rposition
  rw [h2]

/-- An example strict-mode options value. -/
def opts0 : PdfOptions := { is_pdf_ua := true, validator := "PDF/UA-1" }

/-- An example content element at location 1 with span 7. -/
def elem0 : Content := { loc := 1, span := 7 }

/-- An example stack whose log holds one active overline decoration. -/
def stack_over : TextAttrs :=
  { last_resolved := none
    items :=
      [(0,
        TextAttr.Deco
          { kind := TextDecoKind.Overline, stroke := TextDecoStroke.default })] }

/-- C2: `push_deco` fails exactly when strict (PDF/UA) mode is active and some
active decoration entry has a different kind than the pushed one; the error
carries the failing scope's span and the active validator's name, and on
success the entry is appended via `push`. -/
theorem push_deco_spec (options : PdfOptions) (elem : Content)
    (kind : TextDecoKind) (stroke : Smart Stroke) (s : TextAttrs) :
    (∀ e : SourceDiagnostic,
      (s.push_deco options elem kind stroke).1 = Except.error e ↔
        (options.is_pdf_ua = true
            ∧ ∃ d ∈ s.items.filterMap fun x => x.2.as_deco, d.kind ≠ kind)
          ∧ e = { span := elem.span
                  message := options.validator
                    ++ " error: cannot combine underline, overline, or strike" })
    ∧ ((s.push_deco options elem kind stroke).1 = Except.ok () ↔
        ¬(options.is_pdf_ua = true
            ∧ ∃ d ∈ s.items.filterMap fun x => x.2.as_deco, d.kind ≠ kind))
    ∧ ((s.push_deco options elem kind stroke).1 = Except.ok () →
        (s.push_deco options elem kind stroke).2
          = s.push elem
              (TextAttr.Deco
                { kind := kind, stroke := TextDecoStroke.from stroke })) := by
  unfold TextAttrs.push_deco
  by_cases hc : options.is_pdf_ua = true
      ∧ ∃ d ∈ s.items.filterMap fun x => x.2.as_deco, d.kind ≠ kind
  · have hb : (options.is_pdf_ua
        && (s.items.filterMap fun e => e.2.as_deco).any fun d =>
          decide ¬d.kind = kind) = true := by
      simp only [Bool.and_eq_true, List.any_eq_true, decide_eq_true_eq]
      exact ⟨hc.1, hc.2⟩
    simp only [hb, if_true]
    refine ⟨fun e => ⟨fun he => ⟨hc, by injection he with h; exact h.symm⟩,
      fun he => by rw [he.2]⟩, ⟨fun he => by simp at he, fun he => absurd hc he⟩,
      fun he => by simp at he⟩
  · have hb : (options.is_pdf_ua
        && (s.items.filterMap fun e => e.2.as_deco).any fun d =>
          decide ¬d.kind = kind) = false := by
      rw [Bool.and_eq_false_iff]
      by_cases hua : options.is_pdf_ua = true
      · refine Or.inr ?_
        rw [Bool.eq_false_iff]
        intro hany
        rw [List.any_eq_true] at hany
        obtain ⟨d, hd, hne⟩ := hany
        exact hc ⟨hua, d, hd, of_decide_eq_true hne⟩
      · exact Or.inl (Bool.eq_false_iff.mpr hua)
    simp only [hb, if_false, Bool.false_eq_true]
    refine ⟨fun e => ⟨fun he => by simp at he, fun he => absurd he.1 hc⟩,
      ⟨fun _ => hc, fun _ => by trivial⟩, fun _ => by trivial⟩

/-- Witness for C2: in strict mode, pushing an underline while an overline is
active yields exactly the conflicting-decoration error carrying the
validator's name and the failing scope's span. -/
theorem push_deco_spec_witness :
    (stack_over.push_deco opts0 elem0 TextDecoKind.Underline Smart.auto).1
      = Except.error
          { span := 7
            message := "PDF/UA-1 error: cannot combine underline, overline, or strike" } := by
  have hx : opts0.is_pdf_ua = true
      ∧ ∃ d ∈ stack_over.items.filterMap fun x => x.2.as_deco,
          d.kind ≠ TextDecoKind.Underline := by
    refine ⟨rfl,
      { kind := TextDecoKind.Overline, stroke := TextDecoStroke.default },
      ?_, by decide⟩
    simp [stack_over, TextAttr.as_deco]
  exact ((push_deco_spec opts0 elem0 TextDecoKind.Underline Smart.auto
    stack_over).1 _).mpr ⟨hx, rfl⟩

/-- C9: when `push_deco` reports the conflicting-decoration error, the stack
is unchanged — no entry is appended and the memo cell keeps its value. -/
theorem push_deco_error_unchanged (options : PdfOptions) (elem : Content)
    (kind : TextDecoKind) (stroke : Smart Stroke) (s : TextAttrs)
    (e : SourceDiagnostic)
    (h : (s.push_deco options elem kind stroke).1 = Except.error e) :
    (s.push_deco options elem kind stroke).2 = s := by
  unfold TextAttrs.push_deco at h ⊢
  dsimp only at h ⊢
  split_ifs at h ⊢
  rfl

/-- Witness for C9: the failing strict-mode push leaves `stack_over` exactly
as it was. -/
theorem push_deco_error_unchanged_witness :
    (stack_over.push_deco opts0 elem0 TextDecoKind.Underline Smart.auto).2
      = stack_over :=
  push_deco_error_unchanged opts0 elem0 TextDecoKind.Underline Smart.auto
    stack_over
    { span := 7
      message := "PDF/UA-1 error: cannot combine underline, overline, or strike" }
    (by rfl)

/-- C3 (code bug): `pop` returns `true` whenever any matching entry was
removed, even when that entry is not a decoration — here popping a `Strong`
entry returns `true`, contradicting the claim (and the function's own doc
comment, "Returns true if a decoration was removed"). -/
theorem pop_reports_true_for_non_decoration :
    (TextAttrs.pop { last_resolved := none, items := [(0, TextAttr.Strong)] } 0).1
      = true
    ∧ TextAttr.as_deco TextAttr.Strong = none := by
  exact ⟨rfl, rfl⟩

/-- C4: the non-decoration operations are total: popping a location with no
matching entry removes nothing and leaves the log unchanged, `push` always
succeeds by appending its entry, and resolution of an empty log (and of a
fresh stack) is the all-absent style. -/
theorem total_ops_no_failure :
    (∀ (s : TextAttrs) (loc : Location), (∀ e ∈ s.items, e.1 ≠ loc) →
      s.pop loc = (false, { s with last_resolved := none }))
    ∧ (∀ (s : TextAttrs) (elem : Content) (attr : TextAttr),
      (s.push elem attr).items = s.items ++ [(elem.loc, attr)])
    ∧ (∀ (font : Font) (size : Abs),
      resolve_attrs [] font size = ResolvedTextAttrs.EMPTY)
    ∧ (∀ text : TextItem, (TextAttrs.new.resolve text).1 = ResolvedTextAttrs.EMPTY) := by
  refine ⟨?_, fun s elem attr => rfl, fun font size => rfl, fun text => rfl⟩
  intro s loc h
  unfold TextAttrs.pop
  dsimp only
  rw [rposition_eq_none fun e he => decide_eq_false (h e he)]

/-- Witness for C4: popping location 5 from a fresh (empty-log) stack is a
no-op reporting that nothing was removed. -/
theorem total_ops_no_failure_witness :
    TextAttrs.new.pop 5 = (false, { TextAttrs.new with last_resolved := none }) :=
  total_ops_no_failure.1 TextAttrs.new 5 (by intro e he; simp [TextAttrs.new] at he)

theorem pop_last_resolved (s : TextAttrs) (loc : Location) :
    ((s.pop loc).2).last_resolved = none := by
  unfold TextAttrs.pop
  dsimp only
  split <;> rfl

theorem resolve_of_memo_none {s : TextAttrs} (text : TextItem)
    (h : s.last_resolved = none) :
    (s.resolve text).1 = resolve_attrs s.items text.font text.size := by
  unfold TextAttrs.resolve
  dsimp only
  rw [h]

/-- C7: every mutating operation — the pushes and every pop, including one
that removes nothing — clears the memo cell, and a `resolve` issued right
after a push or pop computes its answer afresh from the current log. -/
theorem mutation_invalidates_memo :
    (∀ (s : TextAttrs) (elem : Content) (attr : TextAttr),
      (s.push elem attr).last_resolved = none)
    ∧ (∀ (s : TextAttrs) (elem : Content) (kind : ScriptKind)
        (bs : Smart Length) (lh : Smart TextSize),
        (s.push_script elem kind bs lh).last_resolved = none)
    ∧ (∀ (s : TextAttrs) (elem : Content) (paint : Option Paint),
        (s.push_highlight elem paint).last_resolved = none)
    ∧ (∀ (s : TextAttrs) (options : PdfOptions) (elem : Content)
        (kind : TextDecoKind) (stroke : Smart Stroke),
        (s.push_deco options elem kind stroke).1 = Except.ok () →
          ((s.push_deco options elem kind stroke).2).last_resolved = none)
    ∧ (∀ (s : TextAttrs) (loc : Location), ((s.pop loc).2).last_resolved = none)
    ∧ (∀ (s : TextAttrs) (elem : Content) (attr : TextAttr) (text : TextItem),
        ((s.push elem attr).resolve text).1
          = resolve_attrs (s.push elem attr).items text.font text.size)
    ∧ (∀ (s : TextAttrs) (loc : Location) (text : TextItem),
        (((s.pop loc).2).resolve text).1
          = resolve_attrs ((s.pop loc).2).items text.font text.size) := by
  refine ⟨fun s elem attr => rfl, fun s elem kind bs lh => rfl,
    fun s elem paint => rfl, ?_, pop_last_resolved,
    fun s elem attr text => resolve_of_memo_none text rfl,
    fun s loc text => resolve_of_memo_none text (pop_last_resolved s loc)⟩
  intro s options elem kind stroke h
  unfold TextAttrs.push_deco at h ⊢
  dsimp only at h ⊢
  split_ifs at h ⊢
  rfl

/-- Witness for C7: a successful non-strict decoration push leaves the memo
cleared. -/
theorem mutation_invalidates_memo_witness :
    ((TextAttrs.new.push_deco { is_pdf_ua := false, validator := "none" } elem0
      TextDecoKind.Underline Smart.auto).2).last_resolved = none :=
  mutation_invalidates_memo.2.2.2.1 TextAttrs.new
    { is_pdf_ua := false, validator := "none" } elem0 TextDecoKind.Underline
    Smart.auto (by rfl)

theorem resolve_sets_memo (s : TextAttrs) (text : TextItem) :
    ((s.resolve text).2).last_resolved
      = some (TextParams.new text, (s.resolve text).1) := by
  unfold TextAttrs.resolve
  dsimp only
  cases hm : s.last_resolved with
  | none => rfl
  | some pa =>
    obtain ⟨p, a⟩ := pa
    dsimp only
    by_cases hp : p = TextParams.new text
    · rw [if_pos hp, hm, hp]
    · rw [if_neg hp]

theorem resolve_memo_hit {s : TextAttrs} {p : TextParams} {a : ResolvedTextAttrs}
    (text : TextItem) (hm : s.last_resolved = some (p, a))
    (hp : p = TextParams.new text) :
    s.resolve text = (a, s) := by
  unfold TextAttrs.resolve
  dsimp only
  rw [hm]
  dsimp only
  rw [if_pos hp]

/-- C8: a second `resolve` with no intervening mutation and equal run
parameters (font identity and size — the metrics of the second font are
unconstrained) returns the memoized pair unchanged: the identical result and
an untouched stack, without recomputing from the font. -/
theorem resolve_idempotent (s : TextAttrs) (t t2 : TextItem)
    (h : TextParams.new t2 = TextParams.new t) :
    (s.resolve t).2.resolve t2 = ((s.resolve t).1, (s.resolve t).2) :=
  resolve_memo_hit t2 (resolve_sets_memo s t) h.symm

/-- A second example font with the same identity (index 0) as `font0` but
different metrics. -/
def fontB : Font :=
  { index := 0
    metrics :=
      { subscript := { vertical_offset := { val := 7 }, height := { val := 9 } }
        superscript := { vertical_offset := { val := 11 }, height := { val := 13 } } } }

/-- An example stack holding one script entry, so resolution consults font
metrics. -/
def stack_script : TextAttrs :=
  { last_resolved := none, items := [(0, TextAttr.Script script0)] }

/-- An example run with `font0` at size 2. -/
def runA : TextItem := { font := font0, size := 2 }

/-- An example run with `fontB` (same index, different metrics) at size 2. -/
def runB : TextItem := { font := fontB, size := 2 }

/-- Witness for C8: re-resolving with a font of equal identity but different
metrics returns the memoized value and leaves the stack untouched, showing
the metrics are not consulted again. -/
theorem resolve_idempotent_witness :
    (stack_script.resolve runA).2.resolve runB
      = ((stack_script.resolve runA).1, (stack_script.resolve runA).2)
    ∧ fontB.metrics ≠ font0.metrics :=
  ⟨resolve_idempotent stack_script runA runB (by rfl), by decide⟩

/-- C6: the tag-tree builder wraps the children in a span-style group exactly
when script, background or decoration is set (carrying only the set
sub-fields), then a bold (`Strong`) group exactly when strong is set, then an
italic (`Em`) group outermost exactly when emphasis is set, in that fixed
order; with nothing set the children pass through unchanged. -/
theorem resolve_nodes_spec (a : ResolvedTextAttrs) (accum : List Node)
    (children : List Identifier) :
    (a.resolve_nodes accum children =
      accum ++
        (let base := children.map Node.Leaf
         let w1 :=
           if a.script.isSome || a.background.isSome || a.deco.isSome then
             [Node.Group (TagGroup.mk
               (Tag.Span
                 { line_height := a.script.map fun s => s.lineheight
                   baseline_shift := a.script.map fun s => s.baseline_shift
                   background_color := a.background.join
                   text_decoration_type := a.deco.map fun d => d.kind.to_krilla
                   text_decoration_color := a.deco.bind fun d => d.color
                   text_decoration_thickness := a.deco.bind fun d => d.thickness })
               base)]
           else base
         let w2 :=
           if a.strong = some true then [Node.Group (TagGroup.mk Tag.Strong w1)]
           else w1
         if a.emph = some true then [Node.Group (TagGroup.mk Tag.Em w2)] else w2))
    ∧ ResolvedTextAttrs.EMPTY.resolve_nodes accum children
        = accum ++ children.map Node.Leaf := by
  constructor
  · unfold ResolvedTextAttrs.resolve_nodes
    dsimp only
    split_ifs <;> rfl
  · rfl

end TypstText
